import Mathlib

/-!
Shallow embedding of the FastAPI + Elasticsearch document service
(`src/app/models/document.py`, `src/app/services/document_service.py`,
`src/app/routers/documents.py`, `src/app/routers/health.py`,
`src/app/core/elasticsearch.py`).

Modelling conventions:
* `datetime` values are modelled as `Nat` ticks.  Each call of
  `datetime.now()` in the Python source becomes an explicit `Nat`
  argument; monotonicity of the wall clock is an explicit hypothesis
  where a theorem needs it.
* The Elasticsearch index is modelled as an association list
  `Store := List (String × Article)` from document ids to documents;
  the engine's ranked hit sequence for a search is the order of that list.
* FastAPI's `HTTPException` raised inside a `try:` block is modelled with
  `Except HTTPException`; the `except Exception` handler of a route is the
  surrounding `match` that turns any escaping exception into a 500 response
  (Starlette's `str(HTTPException)` is `"{status_code}: {detail}"`).
-/

/-- A field value as it appears in the `update_data` dict of
`routers/documents.py` (`article_update.dict()` values that are not `None`). -/
inductive FieldVal where
  | str (s : String)
  | strList (l : List String)
  | int (i : Int)
  | rat (q : Rat)
deriving DecidableEq, Repr

/-- `Article` from `src/app/models/document.py` (fields of `BaseDocument`
included).  Python `float` is modelled as `Rat`; the claims only copy and
compare ratings, never compute with them.  An unset timestamp
(`datetime` field not yet assigned, falsy in Python) is `none`. -/
structure Article where
  title : String
  content : String
  author : String
  category : String
  tags : List String
  views : Int
  rating : Rat
  created_at : Option Nat
  updated_at : Option Nat
deriving DecidableEq, Repr

/-- `BaseDocument.save` (`src/app/models/document.py` lines 17-21) acting on
the two timestamp fields:
```
if not self.created_at: self.created_at = datetime.now()   -- reading t1
self.updated_at = datetime.now()                           -- reading t2
```
`t1` and `t2` are the values returned by the two successive
`datetime.now()` calls (when `created_at` is already set only the second
call happens and `t1` is unused). -/
def BaseDocument.saveStamps (created_at : Option Nat) (t1 t2 : Nat) :
    Option Nat × Option Nat :=
  let created' := if created_at.isNone then some t1 else created_at
  (created', some t2)

/-- `Article.save`, inherited from `BaseDocument.save`. -/
def Article.save (a : Article) (t1 t2 : Nat) : Article :=
  { a with
    created_at := (BaseDocument.saveStamps a.created_at t1 t2).1
    updated_at := (BaseDocument.saveStamps a.created_at t1 t2).2 }

/-- `User` from `src/app/models/document.py`. -/
structure User where
  username : String
  email : String
  full_name : String
  bio : String
  is_active : String
  created_at : Option Nat
  updated_at : Option Nat
deriving DecidableEq, Repr

/-- `User.save`, inherited from `BaseDocument.save`. -/
def User.save (u : User) (t1 t2 : Nat) : User :=
  { u with
    created_at := (BaseDocument.saveStamps u.created_at t1 t2).1
    updated_at := (BaseDocument.saveStamps u.created_at t1 t2).2 }

/-- `ArticleCreate` request model (`src/app/routers/documents.py`). -/
structure ArticleCreate where
  title : String
  content : String
  author : String
  category : String
  tags : List String := []
  views : Int := 0
  rating : Rat := 0
deriving DecidableEq, Repr

/-- `UserCreate` request model (`src/app/routers/documents.py`). -/
structure UserCreate where
  username : String
  email : String
  full_name : String
  bio : String := ""
  is_active : String := "true"
deriving DecidableEq, Repr

/-- `Article(**article_data)`: a freshly constructed document has both
timestamp fields unset. -/
def Article.ofCreate (c : ArticleCreate) : Article :=
  { title := c.title, content := c.content, author := c.author
    category := c.category, tags := c.tags, views := c.views
    rating := c.rating, created_at := none, updated_at := none }

/-- `User(**user_data)`: fresh document, timestamps unset. -/
def User.ofCreate (c : UserCreate) : User :=
  { username := c.username, email := c.email, full_name := c.full_name
    bio := c.bio, is_active := c.is_active
    created_at := none, updated_at := none }

/-- Modelled from the spec: "`id` (backend-assigned, opaque string)" /
"`id` is assigned by the backend at creation".  The id generator lives in
the Elasticsearch backend, not under `src/`; following the spec we model it
as an opaque string derived from a fresh seed, which is never empty. -/
def backendAssignId (seed : Nat) : String := "doc-" ++ toString seed

/-- A persisted document together with its backend-assigned `meta.id`. -/
structure StoredArticle where
  meta_id : String
  doc : Article
deriving DecidableEq, Repr

/-- A persisted user together with its backend-assigned `meta.id`. -/
structure StoredUser where
  meta_id : String
  doc : User
deriving DecidableEq, Repr

/-- `DocumentService.create_article`: builds the `Article` from the payload
and saves it (`article = Article(**article_data); article.save()`); the
backend assigns `meta.id` during the save.  `t1 t2` are the two clock
readings of `BaseDocument.save`, `seed` feeds the backend id generator. -/
def DocumentService.create_article (c : ArticleCreate) (seed t1 t2 : Nat) :
    StoredArticle :=
  { meta_id := backendAssignId seed, doc := (Article.ofCreate c).save t1 t2 }

/-- `DocumentService.create_user`: same shape as `create_article`. -/
def DocumentService.create_user (c : UserCreate) (seed t1 t2 : Nat) :
    StoredUser :=
  { meta_id := backendAssignId seed, doc := (User.ofCreate c).save t1 t2 }

/-! ### The index / store -/

/-- The articles index, modelled as an association list from `meta.id` to
document.  List order stands in for the engine's ranked hit order. -/
abbrev Store := List (String × Article)

/-- `Article.get(id=...)`: `some` on a hit, `none` for the `NotFoundError`
path. -/
def Store.getDoc (st : Store) (i : String) : Option Article :=
  (st.find? (fun p => p.1 == i)).map Prod.snd

/-! ### Search query composition (`DocumentService.search_articles`) -/

/-- The `multi_match` clause built by
`Q('multi_match', query=query, fields=['title^2', 'content'])`:
each field name is paired with its boost (`'title^2'` is boost `2`;
a field without `^` has the default boost `1`). -/
structure MultiMatch where
  query : String
  fields : List (String × Nat)
deriving DecidableEq, Repr

/-- A clause added through `Search.filter`: `term` (exact equality of a
keyword field) or `terms` (any of the given values occurs in the field). -/
inductive FilterClause where
  | term (field : String) (value : String)
  | terms (field : String) (values : List String)
deriving DecidableEq, Repr

/-- The request body `search_articles` has composed when it calls
`search.execute()`: an optional `multi_match` query clause (absent =
`match_all`), the accumulated `filter` clauses (filter context of a `bool`
query, so a conjunction), and the pagination window set by
`search[offset:offset + limit]` (`from_ = offset`, `size = limit`). -/
structure SearchBody where
  queryClause : Option MultiMatch
  filters : List FilterClause
  from_ : Nat
  size : Nat
deriving DecidableEq, Repr

/-- `DocumentService.search_articles` lines 47-61: the sequential build of
the search request.  `if query:` / `if category:` / `if tags:` are Python
truthiness tests, so `None`, `""` and `[]` all skip their clause.
The initial `from_ = 0, size = 10` are the engine defaults of a fresh
`Search()`; the final slice always overwrites them. -/
def search_articles_body (query category : Option String)
    (tags : Option (List String)) (limit offset : Nat) : SearchBody :=
  let s0 : SearchBody := { queryClause := none, filters := [], from_ := 0, size := 10 }
  let s1 := match query with
    | some qs =>
        if qs = "" then s0
        else
          let mm : MultiMatch := { query := qs, fields := [("title", 2), ("content", 1)] }
          { s0 with queryClause := some mm }
    | none => s0
  let s2 := match category with
    | some cs =>
        if cs = "" then s1
        else { s1 with filters := s1.filters ++ [FilterClause.term "category" cs] }
    | none => s1
  let s3 := match tags with
    | some ts =>
        if ts = [] then s2
        else { s2 with filters := s2.filters ++ [FilterClause.terms "tags" ts] }
    | none => s2
  { s3 with from_ := offset, size := limit }

/-- Elasticsearch semantics of a filter clause on an `Article`
(only the two clauses the service emits): `term` on `category` is exact
equality of the keyword field; `terms` on `tags` matches when the
document's tag set intersects the given values. -/
def FilterClause.matchesDoc : FilterClause → Article → Bool
  | .term "category" v, a => a.category == v
  | .terms "tags" vs, a => vs.any (fun t => a.tags.contains t)
  | _, _ => false

/-- The text-query part of the body: `match_all` (always true) when no
query clause was set, otherwise the engine's `multi_match` relevance
predicate `tm`, which is external to the repository and therefore kept
abstract. -/
def SearchBody.queryPart (tm : MultiMatch → Article → Bool)
    (b : SearchBody) (a : Article) : Bool :=
  match b.queryClause with
  | none => true
  | some mm => tm mm a

/-- Whether a document is a hit for the composed body: the query part AND
every filter clause (filter context of a `bool` query). -/
def SearchBody.matchesDoc (tm : MultiMatch → Article → Bool)
    (b : SearchBody) (a : Article) : Bool :=
  b.queryPart tm a && b.filters.all (fun f => f.matchesDoc a)

/-- The boost the composed query gives a field (`0` if the field is not
queried). -/
def SearchBody.boostOf (b : SearchBody) (f : String) : Nat :=
  match b.queryClause with
  | none => 0
  | some mm => ((mm.fields.find? (fun p => p.1 == f)).map Prod.snd).getD 0

/-- `search.execute()` + `[hit for hit in response.hits]`: the engine
returns the ranked matching sequence windowed by `from_`/`size`. -/
def SearchBody.executeOn (tm : MultiMatch → Article → Bool)
    (b : SearchBody) (docs : List Article) : List Article :=
  (((docs.filter (b.matchesDoc tm)).drop b.from_).take b.size)

/-- `DocumentService.search_articles` end to end: compose the body, execute
it against the index. -/
def DocumentService.search_articles (tm : MultiMatch → Article → Bool)
    (docs : List Article) (query category : Option String)
    (tags : Option (List String)) (limit offset : Nat) : List Article :=
  (search_articles_body query category tags limit offset).executeOn tm docs

/-! ### Update (`ArticleUpdate` → `update_data` dict → `setattr` loop) -/

/-- `ArticleUpdate` request model (`src/app/routers/documents.py`): every
field optional, `None` meaning "absent from the patch". -/
structure ArticleUpdate where
  title : Option String := none
  content : Option String := none
  author : Option String := none
  category : Option String := none
  tags : Option (List String) := none
  views : Option Int := none
  rating : Option Rat := none
deriving DecidableEq, Repr

/-- `article_update.dict()`: the patch as a key/value mapping,
`none` for fields the client did not set. -/
def ArticleUpdate.dict (u : ArticleUpdate) : List (String × Option FieldVal) :=
  [("title", u.title.map FieldVal.str),
   ("content", u.content.map FieldVal.str),
   ("author", u.author.map FieldVal.str),
   ("category", u.category.map FieldVal.str),
   ("tags", u.tags.map FieldVal.strList),
   ("views", u.views.map FieldVal.int),
   ("rating", u.rating.map FieldVal.rat)]

/-- Router line 144:
`update_data = {k: v for k, v in article_update.dict().items() if v is not None}`. -/
def dropNoneFields (d : List (String × Option FieldVal)) :
    List (String × FieldVal) :=
  d.filterMap (fun kv => kv.2.map (fun v => (kv.1, v)))

/-- `setattr(article, key, value)` for the keys an `ArticleUpdate` can
produce; a key/value pair of the wrong shape leaves the document unchanged. -/
def Article.setattr (a : Article) : String → FieldVal → Article
  | "title", .str s => { a with title := s }
  | "content", .str s => { a with content := s }
  | "author", .str s => { a with author := s }
  | "category", .str s => { a with category := s }
  | "tags", .strList l => { a with tags := l }
  | "views", .int i => { a with views := i }
  | "rating", .rat q => { a with rating := q }
  | _, _ => a

/-- `for key, value in update_data.items(): setattr(article, key, value)`. -/
def Article.setattrs (a : Article) (kvs : List (String × FieldVal)) : Article :=
  kvs.foldl (fun acc kv => acc.setattr kv.1 kv.2) a

/-- `DocumentService.update_article` (service lines 70-85): fetch, apply the
patch field by field, save.  `none` is the `NotFoundError` path. -/
def DocumentService.update_article (st : Store) (i : String)
    (update_data : List (String × FieldVal)) (t1 t2 : Nat) : Option Article :=
  match st.getDoc i with
  | none => none
  | some a => some ((a.setattrs update_data).save t1 t2)

/-- `DocumentService.delete_article` (service lines 87-100): fetch and
delete, returning whether a document existed, plus the store afterwards. -/
def DocumentService.delete_article (st : Store) (i : String) : Bool × Store :=
  match st.getDoc i with
  | some _ => (true, st.filter (fun p => p.1 != i))
  | none => (false, st)

/-! ### HTTP layer (`src/app/routers/documents.py`, `health.py`) -/

/-- FastAPI's `HTTPException` (status code + detail). -/
structure HTTPException where
  status_code : Nat
  detail : String
deriving DecidableEq, Repr

/-- Starlette renders `str(HTTPException)` as `"{status_code}: {detail}"`
(that is, the code, a colon and a space, then the detail). -/
def HTTPException.str (e : HTTPException) : String :=
  toString e.status_code ++ ": " ++ e.detail

/-- The response a route produces: a success body with its status code, or
an `HTTPException` surfaced to the client as an error response. -/
inductive HttpResult (α : Type) where
  | ok (status : Nat) (body : α)
  | err (e : HTTPException)
deriving DecidableEq, Repr

/-- `ArticleResponse` (`src/app/routers/documents.py`); `isoformat()` is
modelled as the identity on the stored tick, so the timestamp fields keep
type `Option Nat`. -/
structure ArticleResponse where
  id : String
  title : String
  content : String
  author : String
  category : String
  tags : List String
  views : Int
  rating : Rat
  created_at : Option Nat
  updated_at : Option Nat
deriving DecidableEq, Repr

/-- Building an `ArticleResponse` from a stored document. -/
def Article.toResponse (a : Article) (i : String) : ArticleResponse :=
  { id := i, title := a.title, content := a.content, author := a.author
    category := a.category, tags := a.tags, views := a.views
    rating := a.rating, created_at := a.created_at, updated_at := a.updated_at }

/-- The `try:` block of route `update_article` (router lines 140-160): build
`update_data`, call the service, raise `HTTPException(404)` when the service
reports "not found", otherwise return the response model. -/
def update_article_tryBlock (st : Store) (i : String) (u : ArticleUpdate)
    (t1 t2 : Nat) : Except HTTPException ArticleResponse :=
  match DocumentService.update_article st i (dropNoneFields u.dict) t1 t2 with
  | none => Except.error { status_code := 404, detail := "Article not found" }
  | some a => Except.ok (a.toResponse i)

/-- Route `PUT /documents/articles/{id}`: the `try:` body, with
`except Exception as e: raise HTTPException(status_code=500, detail=str(e))`
around it.  The handler catches every `Exception` — including the
`HTTPException(404)` the block itself raises — and re-raises it as a 500. -/
def update_article_route (st : Store) (i : String) (u : ArticleUpdate)
    (t1 t2 : Nat) : HttpResult ArticleResponse :=
  match update_article_tryBlock st i u t1 t2 with
  | Except.ok r => HttpResult.ok 200 r
  | Except.error e =>
      HttpResult.err { status_code := 500, detail := e.str }

/-- The `try:` block of route `delete_article` (router lines 166-173),
threading the store so a second call can be examined. -/
def delete_article_tryBlock (st : Store) (i : String) :
    (Except HTTPException String) × Store :=
  let r := DocumentService.delete_article st i
  if r.1 = false then
    (Except.error { status_code := 404, detail := "Article not found" }, r.2)
  else
    (Except.ok "Article deleted successfully", r.2)

/-- Route `DELETE /documents/articles/{id}` with its
`except Exception` handler, which again swallows the 404 and answers 500. -/
def delete_article_route (st : Store) (i : String) :
    HttpResult String × Store :=
  match delete_article_tryBlock st i with
  | (Except.ok m, st') => (HttpResult.ok 200 m, st')
  | (Except.error e, st') =>
      (HttpResult.err { status_code := 500, detail := e.str }, st')

/-! ### Search route (`GET /documents/articles`) -/

/-- Default of `limit: int = Query(10, ge=1, le=100)`. -/
def search_limit_default : Int := 10

/-- Default of `offset: int = Query(0, ge=0)`. -/
def search_offset_default : Int := 0

/-- FastAPI validation of the `limit` query parameter (`ge=1, le=100`). -/
def search_limit_ok (l : Int) : Bool := decide (1 ≤ l) && decide (l ≤ 100)

/-- FastAPI validation of the `offset` query parameter (`ge=0`). -/
def search_offset_ok (o : Int) : Bool := decide (0 ≤ o)

/-- Route `GET /documents/articles`: apply the parameter defaults, validate
(FastAPI answers 422 before the handler runs when a bound is violated),
then run the service search.  `Except.error s` is an error response with
status `s`. -/
def search_articles_route (tm : MultiMatch → Article → Bool)
    (docs : List Article) (query category : Option String)
    (tags : Option (List String)) (limit offset : Option Int) :
    Except Nat (List Article) :=
  let l := limit.getD search_limit_default
  let o := offset.getD search_offset_default
  if search_limit_ok l = false then Except.error 422
  else if search_offset_ok o = false then Except.error 422
  else Except.ok
    (DocumentService.search_articles tm docs query category tags l.toNat o.toNat)

/-! ### Health endpoints (`src/app/routers/health.py`) -/

/-- `check_elasticsearch_health` (`src/app/core/elasticsearch.py` lines
34-42).  The input is the cluster status string reported by
`client.cluster.health()`, or `none` when obtaining the client or the
health call raises (the `except` path, which returns `False`). -/
def check_elasticsearch_health (cluster : Option String) : Bool :=
  match cluster with
  | some s => ["green", "yellow"].contains s
  | none => false

/-- Body of a healthy `GET /health/` response. -/
structure HealthBody where
  status : String
  elasticsearch : String
deriving DecidableEq, Repr

/-- Route `GET /health/` (`health_check`): 503 when the backend is
unhealthy, otherwise 200 with the fixed body.  The `HTTPException` here is
raised outside any `try:`, so it reaches the client unchanged. -/
def health_check (cluster : Option String) : HttpResult HealthBody :=
  if check_elasticsearch_health cluster = false then
    HttpResult.err { status_code := 503, detail := "Elasticsearch is not healthy" }
  else
    HttpResult.ok 200 { status := "healthy", elasticsearch := "connected" }

/-- Route `GET /health/elasticsearch` (`elasticsearch_health`): always a
200, the body reporting the check's outcome. -/
def elasticsearch_health (cluster : Option String) : HttpResult String :=
  HttpResult.ok 200
    (if check_elasticsearch_health cluster then "healthy" else "unhealthy")

/-! ### Helper lemmas -/

theorem Article.save_updated_at (a : Article) (t1 t2 : Nat) :
    (a.save t1 t2).updated_at = some t2 := rfl

theorem Article.save_created_at (a : Article) (t1 t2 : Nat) :
    (a.save t1 t2).created_at =
      if a.created_at.isNone then some t1 else a.created_at := rfl

theorem backendAssignId_ne_empty (seed : Nat) : backendAssignId seed ≠ "" := by
  intro h
  have hlen := congrArg String.length h
  simp [backendAssignId, String.length_append] at hlen
  exact absurd hlen.1 (by decide)

/-- A concrete article used by witnesses (the sample payload of
`tests/test_documents.py`, persisted at tick 5). -/
def articleW : Article :=
  { title := "Test Article", content := "This is a test article content"
    author := "Test Author", category := "technology"
    tags := ["python", "elasticsearch"], views := 100, rating := 0
    created_at := some 5, updated_at := some 5 }

/-- C5: For every document and every Save call: if created_at is unset it is
set to the current time (the first clock reading) and thereafter never
changes across subsequent saves; updated_at is set to the current time on
every save; and — under clock monotonicity (the first reading precedes the
second, and any already stored created_at precedes the second reading) —
after every save, updated_at ≥ created_at. -/
theorem save_timestamp_invariants (a : Article) (t1 t2 : Nat)
    (hmono : t1 ≤ t2)
    (hpast : ∀ c, a.created_at = some c → c ≤ t2) :
    (a.save t1 t2).updated_at = some t2 ∧
    (a.created_at = none → (a.save t1 t2).created_at = some t1) ∧
    (∀ c, a.created_at = some c → (a.save t1 t2).created_at = some c) ∧
    (∀ t3 t4, ((a.save t1 t2).save t3 t4).created_at = (a.save t1 t2).created_at) ∧
    (∀ c u, (a.save t1 t2).created_at = some c →
      (a.save t1 t2).updated_at = some u → c ≤ u) := by
  cases h : a.created_at with
  | none =>
      refine ⟨rfl, fun _ => ?_, fun c hc => ?_, fun t3 t4 => ?_,
        fun c u hc hu => ?_⟩
      · simp [Article.save, BaseDocument.saveStamps, h]
      · cases hc
      · simp [Article.save, BaseDocument.saveStamps, h]
      · rw [Article.save_updated_at] at hu
        rw [Article.save_created_at, h] at hc
        simp at hc hu
        omega
  | some c0 =>
      refine ⟨rfl, fun hn => ?_, fun c hc => ?_, fun t3 t4 => ?_,
        fun c u hc hu => ?_⟩
      · cases hn
      · rw [Article.save_created_at, h]
        simpa using hc
      · simp [Article.save, BaseDocument.saveStamps, h]
      · rw [Article.save_updated_at] at hu
        rw [Article.save_created_at, h] at hc
        simp at hc hu
        have := hpast c0 h
        omega

/-- Witness for C5 at a concrete document and clock readings. -/
theorem save_timestamp_invariants_witness :
    (articleW.save 6 7).updated_at = some 7 ∧
    (∀ c, articleW.created_at = some c → (articleW.save 6 7).created_at = some c) ∧
    (∀ c u, (articleW.save 6 7).created_at = some c →
      (articleW.save 6 7).updated_at = some u → c ≤ u) := by
  have h := save_timestamp_invariants articleW 6 7 (by decide)
    (by intro c hc; simp [articleW] at hc; omega)
  exact ⟨h.1, h.2.2.1, h.2.2.2.2⟩

/-- The sample create payload of `tests/test_documents.py` (rating kept at
the default, which the claims never inspect numerically). -/
def sampleCreate : ArticleCreate :=
  { title := "Test Article", content := "This is a test article content"
    author := "Test Author", category := "technology"
    tags := ["python", "elasticsearch"], views := 100, rating := 0 }

/-- C6 counterexample: on the concrete sample payload, when the wall clock
ticks between the two `datetime.now()` calls of `save` (first reading 0,
second reading 1), the created document has `created_at = some 0` but
`updated_at = some 1`, so they are not equal. -/
theorem create_article_stamps_not_equal :
    ¬ ((DocumentService.create_article sampleCreate 0 0 1).doc.created_at =
       (DocumentService.create_article sampleCreate 0 0 1).doc.updated_at) := by
  decide

/-- C6 (amended): for every valid create payload, the document returned by
CreateArticle (and CreateUser) has a non-empty id; its `created_at` is the
first clock reading of `save` and its `updated_at` the second, so under
clock monotonicity `created_at ≤ updated_at`, with equality exactly when
the two readings coincide (not in general). -/
theorem create_returns_nonempty_id_and_ordered_stamps
    (c : ArticleCreate) (uc : UserCreate) (seed t1 t2 : Nat)
    (hmono : t1 ≤ t2) :
    (DocumentService.create_article c seed t1 t2).meta_id ≠ "" ∧
    (DocumentService.create_article c seed t1 t2).doc.created_at = some t1 ∧
    (DocumentService.create_article c seed t1 t2).doc.updated_at = some t2 ∧
    (∀ x y, (DocumentService.create_article c seed t1 t2).doc.created_at = some x →
      (DocumentService.create_article c seed t1 t2).doc.updated_at = some y → x ≤ y) ∧
    ((DocumentService.create_article c seed t1 t2).doc.created_at =
       (DocumentService.create_article c seed t1 t2).doc.updated_at ↔ t1 = t2) ∧
    (DocumentService.create_user uc seed t1 t2).meta_id ≠ "" ∧
    (DocumentService.create_user uc seed t1 t2).doc.created_at = some t1 ∧
    (DocumentService.create_user uc seed t1 t2).doc.updated_at = some t2 := by
  refine ⟨backendAssignId_ne_empty seed, rfl, rfl, ?_, ?_,
    backendAssignId_ne_empty seed, rfl, rfl⟩
  · intro x y hx hy
    simp [DocumentService.create_article, Article.save, BaseDocument.saveStamps,
      Article.ofCreate] at hx hy
    omega
  · simp [DocumentService.create_article, Article.save, BaseDocument.saveStamps,
      Article.ofCreate]

/-- Witness for the amended C6 at the sample payloads and clock (3, 3). -/
theorem create_returns_nonempty_id_and_ordered_stamps_witness :
    (DocumentService.create_article sampleCreate 7 3 3).meta_id ≠ "" ∧
    (DocumentService.create_article sampleCreate 7 3 3).doc.created_at =
      (DocumentService.create_article sampleCreate 7 3 3).doc.updated_at := by
  have h := create_returns_nonempty_id_and_ordered_stamps sampleCreate
    { username := "testuser", email := "test@example.com", full_name := "Test User" }
    7 3 3 (by decide)
  exact ⟨h.1, h.2.2.2.2.1.mpr rfl⟩

/-- The `setattr` loop over the non-`None` entries of the patch dict is a
field-wise merge: a present field takes the patch value, an absent one
keeps the document's value, and the timestamps are untouched. -/
theorem Article.setattrs_dropNoneFields (a : Article) (u : ArticleUpdate) :
    a.setattrs (dropNoneFields u.dict) =
      { a with
        title := u.title.getD a.title
        content := u.content.getD a.content
        author := u.author.getD a.author
        category := u.category.getD a.category
        tags := u.tags.getD a.tags
        views := u.views.getD a.views
        rating := u.rating.getD a.rating } := by
  obtain ⟨t, c, au, cat, tg, v, r⟩ := u
  cases t <;> cases c <;> cases au <;> cases cat <;> cases tg <;> cases v <;>
    cases r <;> rfl

/-- C4: for every existing article and every patch payload, after
`UpdateArticle` only the fields explicitly present (non-null) in the
payload have the patch values; every absent field keeps the stored value,
`created_at` is unchanged, and — the wall clock having advanced past the
stored `updated_at` by the second `datetime.now()` reading — `updated_at`
strictly increases (it becomes that reading). -/
theorem update_article_frame_conditions (st : Store) (i : String)
    (a : Article) (u : ArticleUpdate) (t1 t2 c0 m : Nat)
    (hget : st.getDoc i = some a)
    (hc : a.created_at = some c0)
    (hm : a.updated_at = some m)
    (hclk : m < t2) :
    ∃ r, DocumentService.update_article st i (dropNoneFields u.dict) t1 t2 = some r ∧
      r.title = u.title.getD a.title ∧
      r.content = u.content.getD a.content ∧
      r.author = u.author.getD a.author ∧
      r.category = u.category.getD a.category ∧
      r.tags = u.tags.getD a.tags ∧
      r.views = u.views.getD a.views ∧
      r.rating = u.rating.getD a.rating ∧
      r.created_at = some c0 ∧
      r.updated_at = some t2 ∧
      (∀ m', r.updated_at = some m' → m < m') := by
  refine ⟨((a.setattrs (dropNoneFields u.dict)).save t1 t2), ?_, ?_⟩
  · simp [DocumentService.update_article, hget]
  · rw [Article.setattrs_dropNoneFields]
    refine ⟨rfl, rfl, rfl, rfl, rfl, rfl, rfl, ?_, rfl, ?_⟩
    · rw [Article.save_created_at]
      simp [hc]
    · intro m' hm'
      rw [Article.save_updated_at] at hm'
      simp at hm'
      omega

/-- Witness for C4: concrete store, patch touching only the title, clock at
9 past the stored stamp 5. -/
theorem update_article_frame_conditions_witness :
    ∃ r, DocumentService.update_article [("a1", articleW)] "a1"
        (dropNoneFields (ArticleUpdate.dict { title := some "New title" })) 9 9 = some r ∧
      r.title = "New title" ∧ r.content = articleW.content ∧
      r.created_at = some 5 ∧ r.updated_at = some 9 := by
  obtain ⟨r, h1, h2, h3, _, _, _, _, _, h9, h10, _⟩ :=
    update_article_frame_conditions [("a1", articleW)] "a1" articleW
      { title := some "New title" } 9 9 5 5 (by decide) (by decide) (by decide)
      (by decide)
  exact ⟨r, h1, h2, h3, h9, h10⟩

/-- C10: a PUT whose body fields are all null is not a no-op: the document
is still re-persisted, so `updated_at` becomes the current clock reading
(differing from the stored one when the clock advanced) while every other
field, `created_at` included, is unchanged, and the endpoint answers 200
with the document. -/
theorem update_empty_patch_bumps_updated_at (st : Store) (i : String)
    (a : Article) (c0 m t1 t2 : Nat)
    (hget : st.getDoc i = some a)
    (hc : a.created_at = some c0)
    (hm : a.updated_at = some m)
    (hclk : m < t2) :
    update_article_route st i {} t1 t2 =
      HttpResult.ok 200
        { id := i, title := a.title, content := a.content, author := a.author
          category := a.category, tags := a.tags, views := a.views
          rating := a.rating, created_at := some c0, updated_at := some t2 } ∧
    ((a.save t1 t2).updated_at ≠ a.updated_at) := by
  constructor
  · have hmerge := Article.setattrs_dropNoneFields a ({} : ArticleUpdate)
    simp only [Option.getD] at hmerge
    simp [update_article_route, update_article_tryBlock,
      DocumentService.update_article, hget, hmerge, Article.toResponse,
      Article.save, BaseDocument.saveStamps, hc]
  · rw [Article.save_updated_at, hm]
    intro hcontra
    simp at hcontra
    omega

/-- Witness for C10 at the concrete store and clock reading 9. -/
theorem update_empty_patch_bumps_updated_at_witness :
    update_article_route [("a1", articleW)] "a1" {} 9 9 =
      HttpResult.ok 200
        { id := "a1", title := articleW.title, content := articleW.content
          author := articleW.author, category := articleW.category
          tags := articleW.tags, views := articleW.views
          rating := articleW.rating, created_at := some 5
          updated_at := some 9 } ∧
    ((articleW.save 9 9).updated_at ≠ articleW.updated_at) := by
  exact update_empty_patch_bumps_updated_at [("a1", articleW)] "a1" articleW
    5 5 9 9 (by decide) (by decide) (by decide) (by decide)

/-- C2 (code evaluation at the failing input): deleting an absent id does
NOT answer 404 — the route's own `HTTPException(404)` is caught by its
blanket `except Exception` handler and re-raised as a 500 whose detail is
the rendered 404; and a second identical delete yields the same outcome. -/
theorem delete_article_absent_gives_500 :
    delete_article_route [] "missing" =
      (HttpResult.err { status_code := 500, detail := "404: Article not found" },
       []) ∧
    delete_article_route (delete_article_route [] "missing").2 "missing" =
      (HttpResult.err { status_code := 500, detail := "404: Article not found" },
       []) := by
  constructor <;> rfl

/-- C3 (code evaluation): `PUT` of an absent id likewise answers 500 (its
own 404 swallowed by `except Exception`), while `PUT` of a present id with
a valid one-field patch answers 200 with the updated article. -/
theorem update_article_absent_gives_500 :
    update_article_route [] "missing" {} 7 7 =
      HttpResult.err { status_code := 500, detail := "404: Article not found" } ∧
    update_article_route [("a1", articleW)] "a1"
        ({ title := some "New title" } : ArticleUpdate) 7 7 =
      HttpResult.ok 200
        { id := "a1", title := "New title", content := articleW.content
          author := articleW.author, category := articleW.category
          tags := articleW.tags, views := articleW.views
          rating := articleW.rating, created_at := some 5
          updated_at := some 7 } := by
  constructor <;> rfl

theorem search_articles_body_from (q c : Option String)
    (tg : Option (List String)) (limit offset : Nat) :
    (search_articles_body q c tg limit offset).from_ = offset := rfl

theorem search_articles_body_size (q c : Option String)
    (tg : Option (List String)) (limit offset : Nat) :
    (search_articles_body q c tg limit offset).size = limit := rfl

theorem search_articles_body_queryClause (q c : Option String)
    (tg : Option (List String)) (limit offset : Nat) :
    (search_articles_body q c tg limit offset).queryClause =
      (match q with
       | some qs =>
           if qs = "" then none
           else some ({ query := qs, fields := [("title", 2), ("content", 1)] } : MultiMatch)
       | none => none) := by
  cases q <;> cases c <;> cases tg <;>
    simp only [search_articles_body] <;>
    repeat' first | rfl | split

theorem search_articles_body_filters (q c : Option String)
    (tg : Option (List String)) (limit offset : Nat) :
    (search_articles_body q c tg limit offset).filters =
      (match c with
       | some cs => if cs = "" then [] else [FilterClause.term "category" cs]
       | none => []) ++
      (match tg with
       | some ts => if ts = [] then [] else [FilterClause.terms "tags" ts]
       | none => []) := by
  cases q <;> cases c <;> cases tg <;>
    simp only [search_articles_body] <;>
    repeat' first | rfl | simp | split

/-- C1: the composed search request: a supplied (non-empty) text query
yields a multi-field match on `title` (boost 2, weighted higher) and
`content` (boost 1); no text query yields a clause matching all documents;
a supplied category conjoins a `term` filter that is exact equality on
`category`; supplied non-empty tags conjoin a `terms` filter that requires
the document's tag set to intersect the given set; hits must satisfy the
query part AND every filter. -/
theorem search_query_composition (q c : Option String)
    (tg : Option (List String)) (limit offset : Nat) :
    (∀ s, q = some s → s ≠ "" →
       (search_articles_body q c tg limit offset).queryClause =
         some ({ query := s, fields := [("title", 2), ("content", 1)] } : MultiMatch) ∧
       (search_articles_body q c tg limit offset).boostOf "title" = 2 ∧
       (search_articles_body q c tg limit offset).boostOf "content" = 1) ∧
    (q = none →
       (search_articles_body q c tg limit offset).queryClause = none ∧
       ∀ tm a, (search_articles_body q c tg limit offset).queryPart tm a = true) ∧
    (∀ s, c = some s → s ≠ "" →
       FilterClause.term "category" s ∈
         (search_articles_body q c tg limit offset).filters) ∧
    (∀ l, tg = some l → l ≠ [] →
       FilterClause.terms "tags" l ∈
         (search_articles_body q c tg limit offset).filters) ∧
    (∀ tm a, (search_articles_body q c tg limit offset).matchesDoc tm a =
       ((search_articles_body q c tg limit offset).queryPart tm a &&
        (search_articles_body q c tg limit offset).filters.all
          (fun f => f.matchesDoc a))) ∧
    (∀ a v, (FilterClause.term "category" v).matchesDoc a = (a.category == v)) ∧
    (∀ a l, (FilterClause.terms "tags" l).matchesDoc a =
       l.any (fun t => a.tags.contains t)) := by
  refine ⟨?_, ?_, ?_, ?_, fun tm a => rfl, fun a v => rfl, fun a l => rfl⟩
  · intro s hq hs
    subst hq
    refine ⟨?_, ?_, ?_⟩ <;>
      simp [SearchBody.boostOf, search_articles_body_queryClause, hs]
  · intro hq
    subst hq
    constructor
    · rw [search_articles_body_queryClause]
    · intro tm a
      simp [SearchBody.queryPart, search_articles_body_queryClause]
  · intro s hc hs
    subst hc
    rw [search_articles_body_filters]
    simp [hs]
  · intro l htg hl
    subst htg
    rw [search_articles_body_filters]
    simp [hl]

/-- Witness for C1: all three clauses present at a concrete call. -/
theorem search_query_composition_witness :
    (search_articles_body (some "rust") (some "technology") (some ["python"])
       10 0).queryClause =
      some ({ query := "rust", fields := [("title", 2), ("content", 1)] } : MultiMatch) ∧
    FilterClause.term "category" "technology" ∈
      (search_articles_body (some "rust") (some "technology") (some ["python"])
        10 0).filters ∧
    FilterClause.terms "tags" ["python"] ∈
      (search_articles_body (some "rust") (some "technology") (some ["python"])
        10 0).filters := by
  have h := search_query_composition (some "rust") (some "technology")
    (some ["python"]) 10 0
  exact ⟨(h.1 "rust" rfl (by decide)).1, h.2.2.1 "technology" rfl (by decide),
    h.2.2.2.1 ["python"] rfl (by decide)⟩

/-- C9: `search_articles` treats an empty-string query exactly like an
absent query and an empty tags list exactly like absent tags (the composed
body is identical); only a non-empty string adds the multi-match clause and
only a non-empty list adds the tags filter. -/
theorem search_falsy_params_skip_clauses (q c : Option String)
    (tg : Option (List String)) (limit offset : Nat) :
    search_articles_body (some "") c tg limit offset =
      search_articles_body none c tg limit offset ∧
    search_articles_body q c (some []) limit offset =
      search_articles_body q c none limit offset ∧
    (∀ s, s ≠ "" →
       (search_articles_body (some s) c tg limit offset).queryClause =
         some ({ query := s, fields := [("title", 2), ("content", 1)] } : MultiMatch)) ∧
    (∀ l, l ≠ [] →
       FilterClause.terms "tags" l ∈
         (search_articles_body q c (some l) limit offset).filters) := by
  refine ⟨rfl, rfl, ?_, ?_⟩
  · intro s hs
    simp [search_articles_body_queryClause, hs]
  · intro l hl
    rw [search_articles_body_filters]
    simp [hl]

/-- Witness for C9 at concrete non-empty inputs. -/
theorem search_falsy_params_skip_clauses_witness :
    (search_articles_body (some "x") none none 10 0).queryClause =
      some ({ query := "x", fields := [("title", 2), ("content", 1)] } : MultiMatch) ∧
    FilterClause.terms "tags" ["t"] ∈
      (search_articles_body none none (some ["t"]) 10 0).filters := by
  exact ⟨(search_falsy_params_skip_clauses none none none 10 0).2.2.1 "x"
      (by decide),
    (search_falsy_params_skip_clauses none none none 10 0).2.2.2 ["t"]
      (by decide)⟩

/-- C8: `GET /health/` answers 503 exactly when the backend check fails and
200 with `{status:"healthy", elasticsearch:"connected"}` otherwise;
`GET /health/elasticsearch` always answers 200, its body reporting
"healthy" or "unhealthy" according to the check. -/
theorem health_endpoints_behavior (cluster : Option String) :
    (health_check cluster =
       if check_elasticsearch_health cluster then
         HttpResult.ok 200 { status := "healthy", elasticsearch := "connected" }
       else
         HttpResult.err
           { status_code := 503, detail := "Elasticsearch is not healthy" }) ∧
    (elasticsearch_health cluster =
       HttpResult.ok 200
         (if check_elasticsearch_health cluster then "healthy"
          else "unhealthy")) := by
  constructor
  · cases h : check_elasticsearch_health cluster <;> simp [health_check, h]
  · rfl

/-- C7: with `limit` in `[1,100]` and `offset ≥ 0` the search route answers
the engine's matching sequence with its first `offset` elements skipped and
at most `limit` kept, so never more than `limit` documents; `limit`
defaults to 10 and `offset` to 0; the route rejects (422) a `limit`
outside `[1,100]` and a negative `offset`. -/
theorem search_pagination_and_validation
    (tm : MultiMatch → Article → Bool) (docs : List Article)
    (q c : Option String) (tg : Option (List String)) (lim off : Int) :
    (search_limit_default = 10 ∧ search_offset_default = 0) ∧
    (search_articles_route tm docs q c tg none none =
       search_articles_route tm docs q c tg (some 10) (some 0)) ∧
    (1 ≤ lim → lim ≤ 100 → 0 ≤ off →
       search_articles_route tm docs q c tg (some lim) (some off) =
         Except.ok
           (((docs.filter
               ((search_articles_body q c tg lim.toNat off.toNat).matchesDoc
                 tm)).drop off.toNat).take lim.toNat) ∧
       ∀ res, search_articles_route tm docs q c tg (some lim) (some off) =
           Except.ok res → res.length ≤ lim.toNat) ∧
    (lim < 1 ∨ 100 < lim →
       search_articles_route tm docs q c tg (some lim) (some off) =
         Except.error 422) ∧
    (off < 0 →
       search_articles_route tm docs q c tg (some lim) (some off) =
         Except.error 422) := by
  refine ⟨⟨rfl, rfl⟩, rfl, ?_, ?_, ?_⟩
  · intro h1 h2 h3
    have hroute : search_articles_route tm docs q c tg (some lim) (some off) =
        Except.ok
          (((docs.filter
              ((search_articles_body q c tg lim.toNat off.toNat).matchesDoc
                tm)).drop off.toNat).take lim.toNat) := by
      simp [search_articles_route, search_limit_ok, search_offset_ok, h1, h2,
        h3, DocumentService.search_articles, SearchBody.executeOn,
        search_articles_body_from, search_articles_body_size]
    refine ⟨hroute, ?_⟩
    intro res hres
    rw [hroute] at hres
    cases hres
    exact List.length_take_le _ _
  · intro h
    rcases h with h | h <;>
      simp [search_articles_route, search_limit_ok, search_offset_ok] <;>
      omega
  · intro h
    by_cases hl : search_limit_ok ((some lim : Option Int).getD search_limit_default) = true
    · simp [search_articles_route, hl, search_offset_ok]
      omega
    · simp only [search_articles_route]
      rw [if_pos]
      simpa using hl

/-- Witness for C7: one matching document, limit 1, offset 0. -/
theorem search_pagination_and_validation_witness :
    search_articles_route (fun _ _ => true) [articleW] none none none
      (some 1) (some 0) = Except.ok [articleW] ∧
    search_articles_route (fun _ _ => true) [articleW] none none none
      (some 0) (some 0) = Except.error 422 ∧
    search_articles_route (fun _ _ => true) [articleW] none none none
      (some 1) (some (-1)) = Except.error 422 := by
  have h := search_pagination_and_validation (fun _ _ => true) [articleW]
    none none none 1 0
  have h0 := search_pagination_and_validation (fun _ _ => true) [articleW]
    none none none 0 0
  have hneg := search_pagination_and_validation (fun _ _ => true) [articleW]
    none none none 1 (-1)
  refine ⟨?_, ?_, ?_⟩
  · have heq := (h.2.2.1 (by decide) (by decide) (by decide)).1
    rw [heq]
    rfl
  · exact h0.2.2.2.1 (Or.inl (by decide))
  · exact hneg.2.2.2.2 (by decide)
